import Mathlib

/-!
Verification of `ns_stations_dataframe.py`: a fetcher `get_ns_stations`
building an HTTP GET request with optional filters and absorbing request
errors, and a flattener `ns_data_to_dataframe` turning the nested JSON
station payload into a flat table (a pandas DataFrame in the source).

The Python values flowing through the program are decoded JSON, modelled
by the inductive type `Json` below.  JSON numbers are modelled as exact
rationals (the program performs no arithmetic on them; values only pass
through).  Python dicts are modelled as association lists with unique
keys, looked up by first match.
-/

/-- A decoded JSON value, as produced by `response.json()` in the source.
`null` models Python `None`; objects are association lists in key order. -/
inductive Json where
  | null : Json
  | bool (b : Bool) : Json
  | num (q : ℚ) : Json
  | str (s : String) : Json
  | arr (elems : List Json) : Json
  | obj (fields : List (String × Json)) : Json

/-- First-match lookup in an association list: Python `dict` access for a
dict whose keys are unique (as any decoded JSON object's are). -/
def lookupKey : List (String × Json) → String → Option Json
  | [], _ => none
  | (k, v) :: rest, key => if k = key then some v else lookupKey rest key

/-- `Json.isObj j` is true exactly when `j` is a JSON object (a Python dict). -/
def Json.isObj : Json → Bool
  | .obj _ => true
  | _ => false

/-- `dict.get(key, default)` on a dict given by its fields: the value bound
to `key`, or `default` when the key is absent. -/
def dictGetD (kvs : List (String × Json)) (key : String) (d : Json) : Json :=
  (lookupKey kvs key).getD d

/-- Python `x.get(key, default)`: defined (returns `some`) only when `x` is a
dict; on any other value Python raises `AttributeError`, modelled by `none`. -/
def pyGet : Json → String → Json → Option Json
  | .obj kvs, key, d => some (dictGetD kvs key d)
  | _, _, _ => none

/-- The chained lookup idiom `x.get(k1, d1).get(k2, d2)` of the source:
fails (`none`) when `x` is not a dict or when `x.get(k1, d1)` is not a dict. -/
def pyGet2 (j : Json) (k1 : String) (d1 : Json) (k2 : String) (d2 : Json) : Option Json :=
  match pyGet j k1 d1 with
  | none => none
  | some o => pyGet o k2 d2

/-- The 26 key/value expressions of the `station_info` dict literal in
`ns_data_to_dataframe` (src/api.py lines 68-103), in source order.  Each
value is `Option Json`: `none` where the Python expression raises. -/
def stationFields (station : Json) : List (String × Option Json) :=
  [("uicCode", pyGet2 station "id" (Json.obj []) "uicCode" Json.null),
   ("evaCode", pyGet2 station "id" (Json.obj []) "evaCode" Json.null),
   ("cdCode", pyGet2 station "id" (Json.obj []) "cdCode" Json.null),
   ("code", pyGet2 station "id" (Json.obj []) "code" Json.null),
   ("stationType", pyGet station "stationType" Json.null),
   ("name_long", pyGet2 station "names" (Json.obj []) "long" Json.null),
   ("name_medium", pyGet2 station "names" (Json.obj []) "medium" Json.null),
   ("name_short", pyGet2 station "names" (Json.obj []) "short" Json.null),
   ("name_festive", pyGet2 station "names" (Json.obj []) "festive" Json.null),
   ("synonyms", pyGet2 station "names" (Json.obj []) "synonyms" (Json.arr [])),
   ("lat", pyGet2 station "location" (Json.obj []) "lat" Json.null),
   ("lng", pyGet2 station "location" (Json.obj []) "lng" Json.null),
   ("tracks", pyGet station "tracks" (Json.arr [])),
   ("hasKnownFacilities", pyGet station "hasKnownFacilities" Json.null),
   ("availableForAccessibleTravel", pyGet station "availableForAccessibleTravel" Json.null),
   ("hasTravelAssistance", pyGet station "hasTravelAssistance" Json.null),
   ("areTracksIndependentlyAccessible", pyGet station "areTracksIndependentlyAccessible" Json.null),
   ("isBorderStop", pyGet station "isBorderStop" Json.null),
   ("country", pyGet station "country" Json.null),
   ("radius", pyGet station "radius" Json.null),
   ("approachingRadius", pyGet station "approachingRadius" Json.null),
   ("distance", pyGet station "distance" Json.null),
   ("startDate", pyGet station "startDate" Json.null),
   ("endDate", pyGet station "endDate" Json.null),
   ("nearbyMeLocationId_value", pyGet2 station "nearbyMeLocationId" (Json.obj []) "value" Json.null),
   ("nearbyMeLocationId_type", pyGet2 station "nearbyMeLocationId" (Json.obj []) "type" Json.null)]

/-- Evaluation of a Python dict literal whose value expressions may raise:
the dict (in key order) when every value evaluates, `none` as soon as one
raises, as Python evaluates the literal left to right. -/
def optionFields : List (String × Option Json) → Option (List (String × Json))
  | [] => some []
  | (k, ov) :: rest =>
    match ov with
    | none => none
    | some v =>
      match optionFields rest with
      | none => none
      | some r => some ((k, v) :: r)

/-- One iteration of the loop in `ns_data_to_dataframe`: builds the flat
`station_info` dict for one station, or fails where the Python raises. -/
def flattenStation (station : Json) : Option (List (String × Json)) :=
  optionFields (stationFields station)

/-- The loop of `ns_data_to_dataframe`: flattens each station of the payload
list in order, failing as soon as one iteration raises. -/
def flattenStations : List Json → Option (List (List (String × Json)))
  | [] => some []
  | s :: rest =>
    match flattenStation s with
    | none => none
    | some r =>
      match flattenStations rest with
      | none => none
      | some rs => some (r :: rs)

/-- A pandas DataFrame as `pd.DataFrame(list_of_dicts)` builds one: its
column labels, and one record per input dict.  Pandas infers `columns` as
the union of the dicts' keys in order of first appearance; an empty list of
dicts therefore yields an empty column set. -/
structure DataFrame where
  columns : List String
  records : List (List (String × Json))

/-- Column inference of `pd.DataFrame(list_of_dicts)`: the union of the
records' keys, ordered by first appearance. -/
def dfColumns (records : List (List (String × Json))) : List String :=
  records.foldl (fun acc r => r.foldl (fun a kv => if kv.1 ∈ a then a else a ++ [kv.1]) acc) []

/-- `pd.DataFrame(station_list)` on the flattened records. -/
def mkDataFrame (records : List (List (String × Json))) : DataFrame :=
  { columns := dfColumns records, records := records }

/-- `ns_data_to_dataframe` (src/api.py lines 56-106): reads the list under
the `payload` key of `data` (absent key defaults to the empty list), flattens
each station, and builds the DataFrame.  `none` models the Python call
raising: when `data` is not a dict, when the payload value is not a list,
or when a station record makes a chained `.get` raise. -/
def ns_data_to_dataframe (data : Json) : Option DataFrame :=
  match pyGet data "payload" (Json.arr []) with
  | none => none
  | some (Json.arr stations) =>
    match flattenStations stations with
    | none => none
    | some rows => some (mkDataFrame rows)
  | some _ => none

/-- The fixed column set of a flattened row, in the order of the
`station_info` dict literal. -/
def fixedColumns : List String :=
  ["uicCode", "evaCode", "cdCode", "code", "stationType", "name_long", "name_medium",
   "name_short", "name_festive", "synonyms", "lat", "lng", "tracks", "hasKnownFacilities",
   "availableForAccessibleTravel", "hasTravelAssistance", "areTracksIndependentlyAccessible",
   "isBorderStop", "country", "radius", "approachingRadius", "distance", "startDate",
   "endDate", "nearbyMeLocationId_value", "nearbyMeLocationId_type"]

/-- The four keys of a station record that `ns_data_to_dataframe` reads as
nested sub-objects via chained `.get` calls. -/
def subObjectKeys : List String :=
  ["id", "names", "location", "nearbyMeLocationId"]

/-- A station record the flattener accepts: a dict in which each of the four
sub-object keys, when present at all, is bound to a dict.  (A key bound to
`null` or any non-dict makes the chained `.get` raise; an absent key is
defaulted to `{}` and is fine.) -/
def wellFormedStation : Json → Bool
  | .obj kvs => subObjectKeys.all fun k =>
      match lookupKey kvs k with
      | none => true
      | some v => v.isObj
  | _ => false

lemma pyGet_obj (kvs : List (String × Json)) (key : String) (d : Json) :
    pyGet (Json.obj kvs) key d = some (dictGetD kvs key d) := rfl

/-- An optional value that is a dict whenever present is, after defaulting to
`{}`, a dict. -/
lemma getD_obj_of_wf (o : Option Json) (h : ∀ v, o = some v → v.isObj = true) :
    ∃ kvs, o.getD (Json.obj []) = Json.obj kvs := by
  cases o with
  | none => exact ⟨[], rfl⟩
  | some v =>
    cases v with
    | obj kvs => exact ⟨kvs, rfl⟩
    | null => simp [Json.isObj] at h
    | bool b => simp [Json.isObj] at h
    | num q => simp [Json.isObj] at h
    | str s => simp [Json.isObj] at h
    | arr xs => simp [Json.isObj] at h

/-- The flat row a well-formed station record flattens to, as a function of
the record's fields `kvs` and its four (defaulted) sub-dicts. -/
def flatRow (kvs idkvs nameskvs lockvs nearkvs : List (String × Json)) : List (String × Json) :=
      [("uicCode", dictGetD idkvs "uicCode" Json.null),
       ("evaCode", dictGetD idkvs "evaCode" Json.null),
       ("cdCode", dictGetD idkvs "cdCode" Json.null),
       ("code", dictGetD idkvs "code" Json.null),
       ("stationType", dictGetD kvs "stationType" Json.null),
       ("name_long", dictGetD nameskvs "long" Json.null),
       ("name_medium", dictGetD nameskvs "medium" Json.null),
       ("name_short", dictGetD nameskvs "short" Json.null),
       ("name_festive", dictGetD nameskvs "festive" Json.null),
       ("synonyms", dictGetD nameskvs "synonyms" (Json.arr [])),
       ("lat", dictGetD lockvs "lat" Json.null),
       ("lng", dictGetD lockvs "lng" Json.null),
       ("tracks", dictGetD kvs "tracks" (Json.arr [])),
       ("hasKnownFacilities", dictGetD kvs "hasKnownFacilities" Json.null),
       ("availableForAccessibleTravel", dictGetD kvs "availableForAccessibleTravel" Json.null),
       ("hasTravelAssistance", dictGetD kvs "hasTravelAssistance" Json.null),
       ("areTracksIndependentlyAccessible", dictGetD kvs "areTracksIndependentlyAccessible" Json.null),
       ("isBorderStop", dictGetD kvs "isBorderStop" Json.null),
       ("country", dictGetD kvs "country" Json.null),
       ("radius", dictGetD kvs "radius" Json.null),
       ("approachingRadius", dictGetD kvs "approachingRadius" Json.null),
       ("distance", dictGetD kvs "distance" Json.null),
       ("startDate", dictGetD kvs "startDate" Json.null),
       ("endDate", dictGetD kvs "endDate" Json.null),
       ("nearbyMeLocationId_value", dictGetD nearkvs "value" Json.null),
       ("nearbyMeLocationId_type", dictGetD nearkvs "type" Json.null)]

/-- Flattening one station record once the four sub-object lookups are known
to resolve (after defaulting) to dicts: the row is exactly the 26 fields of
the `station_info` literal, each `.get` chain replaced by its value. -/
lemma flattenStation_obj_eq (kvs idkvs nameskvs lockvs nearkvs : List (String × Json))
    (hid : dictGetD kvs "id" (Json.obj []) = Json.obj idkvs)
    (hnames : dictGetD kvs "names" (Json.obj []) = Json.obj nameskvs)
    (hloc : dictGetD kvs "location" (Json.obj []) = Json.obj lockvs)
    (hnear : dictGetD kvs "nearbyMeLocationId" (Json.obj []) = Json.obj nearkvs) :
    flattenStation (Json.obj kvs) = some (flatRow kvs idkvs nameskvs lockvs nearkvs) := by
  simp only [flattenStation, stationFields, pyGet2, pyGet_obj, hid, hnames, hloc, hnear]
  simp [optionFields, pyGet, flatRow]

/-- The keys of a flat row are the 26 fixed columns, whatever the values. -/
lemma flatRow_keys (kvs idkvs nameskvs lockvs nearkvs : List (String × Json)) :
    (flatRow kvs idkvs nameskvs lockvs nearkvs).map Prod.fst = fixedColumns := rfl

lemma flatRow_lat (kvs idkvs nameskvs lockvs nearkvs : List (String × Json)) :
    lookupKey (flatRow kvs idkvs nameskvs lockvs nearkvs) "lat"
      = some (dictGetD lockvs "lat" Json.null) := rfl

lemma flatRow_lng (kvs idkvs nameskvs lockvs nearkvs : List (String × Json)) :
    lookupKey (flatRow kvs idkvs nameskvs lockvs nearkvs) "lng"
      = some (dictGetD lockvs "lng" Json.null) := rfl

lemma flatRow_synonyms (kvs idkvs nameskvs lockvs nearkvs : List (String × Json)) :
    lookupKey (flatRow kvs idkvs nameskvs lockvs nearkvs) "synonyms"
      = some (dictGetD nameskvs "synonyms" (Json.arr [])) := rfl

/-- In a well-formed station record, each sub-object key present is bound to
a dict. -/
lemma wellFormed_sub (kvs : List (String × Json))
    (h : wellFormedStation (Json.obj kvs) = true)
    (k : String) (hk : k ∈ subObjectKeys) :
    ∀ v, lookupKey kvs k = some v → v.isObj = true := by
  intro v hv
  have hall := List.all_eq_true.mp h k hk
  rw [hv] at hall
  exact hall

/-- A well-formed station record flattens without failing, to the `flatRow`
of its four (defaulted) sub-dicts. -/
lemma flattenStation_wf (kvs : List (String × Json))
    (h : wellFormedStation (Json.obj kvs) = true) :
    ∃ idkvs nameskvs lockvs nearkvs,
      dictGetD kvs "id" (Json.obj []) = Json.obj idkvs ∧
      dictGetD kvs "names" (Json.obj []) = Json.obj nameskvs ∧
      dictGetD kvs "location" (Json.obj []) = Json.obj lockvs ∧
      dictGetD kvs "nearbyMeLocationId" (Json.obj []) = Json.obj nearkvs ∧
      flattenStation (Json.obj kvs) = some (flatRow kvs idkvs nameskvs lockvs nearkvs) := by
  obtain ⟨idkvs, hid⟩ := getD_obj_of_wf _ (wellFormed_sub kvs h "id" (by simp [subObjectKeys]))
  obtain ⟨nameskvs, hnames⟩ :=
    getD_obj_of_wf _ (wellFormed_sub kvs h "names" (by simp [subObjectKeys]))
  obtain ⟨lockvs, hloc⟩ :=
    getD_obj_of_wf _ (wellFormed_sub kvs h "location" (by simp [subObjectKeys]))
  obtain ⟨nearkvs, hnear⟩ :=
    getD_obj_of_wf _ (wellFormed_sub kvs h "nearbyMeLocationId" (by simp [subObjectKeys]))
  exact ⟨idkvs, nameskvs, lockvs, nearkvs, hid, hnames, hloc, hnear,
    flattenStation_obj_eq kvs idkvs nameskvs lockvs nearkvs hid hnames hloc hnear⟩

/-- A well-formed station record flattens to a row whose keys are exactly
the 26 fixed columns. -/
lemma flattenStation_wf_keys (kvs : List (String × Json))
    (h : wellFormedStation (Json.obj kvs) = true) :
    ∃ row, flattenStation (Json.obj kvs) = some row ∧ row.map Prod.fst = fixedColumns := by
  obtain ⟨idkvs, nameskvs, lockvs, nearkvs, _, _, _, _, heq⟩ := flattenStation_wf kvs h
  exact ⟨_, heq, flatRow_keys kvs idkvs nameskvs lockvs nearkvs⟩

/-- When every station of the list flattens, the loop returns one row per
station, in input order (`rows[i]?` is the flattening of `stations[i]?`). -/
lemma flattenStations_of_all (stations : List Json)
    (h : ∀ s ∈ stations, ∃ r, flattenStation s = some r) :
    ∃ rows, flattenStations stations = some rows ∧ rows.length = stations.length ∧
      ∀ i : ℕ, rows[i]? = (stations[i]?).bind flattenStation := by
  induction stations with
  | nil => exact ⟨[], rfl, rfl, fun i => by simp⟩
  | cons s rest ih =>
    obtain ⟨r, hr⟩ := h s (List.mem_cons_self s rest)
    obtain ⟨rows, hrows, hlen, hidx⟩ := ih (fun x hx => h x (List.mem_cons_of_mem s hx))
    refine ⟨r :: rows, ?_, by simpa using hlen, ?_⟩
    · simp only [flattenStations, hr, hrows]
    · intro i
      cases i with
      | zero => simpa using hr.symm
      | succ n => simpa using hidx n

/-- When one station of the list fails to flatten, the whole loop raises. -/
lemma flattenStations_of_mem_none (stations : List Json) (s : Json)
    (hs : s ∈ stations) (hf : flattenStation s = none) :
    flattenStations stations = none := by
  induction stations with
  | nil => cases hs
  | cons t rest ih =>
    rcases List.mem_cons.mp hs with heq | hmem
    · subst heq
      simp only [flattenStations, hf]
    · simp only [flattenStations]
      cases ht : flattenStation t with
      | none => rfl
      | some r => rw [ih hmem]

/-- Python `.get` on a value that is not a dict raises (`AttributeError`). -/
lemma pyGet_none_of_not_obj (v : Json) (hno : v.isObj = false) (key : String) (d : Json) :
    pyGet v key d = none := by
  cases v with
  | obj kvs => simp [Json.isObj] at hno
  | null => rfl
  | bool b => rfl
  | num q => rfl
  | str s => rfl
  | arr xs => rfl

/-- A dict literal one of whose value expressions raises evaluates to an
error, wherever in the literal that expression stands. -/
lemma optionFields_eq_none (l : List (String × Option Json)) (k : String)
    (h : (k, (none : Option Json)) ∈ l) : optionFields l = none := by
  induction l with
  | nil => cases h
  | cons kv rest ih =>
    obtain ⟨k', ov⟩ := kv
    rcases List.mem_cons.mp h with heq | hmem
    · obtain ⟨-, hov⟩ := Prod.mk.injEq .. ▸ heq
      cases hov
      rfl
    · simp only [optionFields]
      cases ov with
      | none => rfl
      | some v => rw [ih hmem]

/-- A station record that binds one of the four sub-object keys to a value
that is not a dict makes `flattenStation` raise: the chained second `.get`
is called on a non-dict. -/
lemma flattenStation_subkey_not_obj (kvs : List (String × Json)) (key : String)
    (hk : key ∈ subObjectKeys) (v : Json)
    (hv : lookupKey kvs key = some v) (hno : v.isObj = false) :
    flattenStation (Json.obj kvs) = none := by
  simp only [subObjectKeys, List.mem_cons, List.not_mem_nil, or_false] at hk
  have hval : dictGetD kvs key (Json.obj []) = v := by
    simp [dictGetD, hv]
  rcases hk with hkey | hkey | hkey | hkey
  all_goals subst hkey
  · have h1 : pyGet2 (Json.obj kvs) "id" (Json.obj []) "uicCode" Json.null = none := by
      simp only [pyGet2, pyGet_obj, hval]
      exact pyGet_none_of_not_obj v hno "uicCode" Json.null
    exact optionFields_eq_none _ "uicCode" (by simp [stationFields, h1])
  · have h1 : pyGet2 (Json.obj kvs) "names" (Json.obj []) "long" Json.null = none := by
      simp only [pyGet2, pyGet_obj, hval]
      exact pyGet_none_of_not_obj v hno "long" Json.null
    exact optionFields_eq_none _ "name_long" (by simp [stationFields, h1])
  · have h1 : pyGet2 (Json.obj kvs) "location" (Json.obj []) "lat" Json.null = none := by
      simp only [pyGet2, pyGet_obj, hval]
      exact pyGet_none_of_not_obj v hno "lat" Json.null
    exact optionFields_eq_none _ "lat" (by simp [stationFields, h1])
  · have h1 : pyGet2 (Json.obj kvs) "nearbyMeLocationId" (Json.obj []) "value" Json.null = none := by
      simp only [pyGet2, pyGet_obj, hval]
      exact pyGet_none_of_not_obj v hno "value" Json.null
    exact optionFields_eq_none _ "nearbyMeLocationId_value" (by simp [stationFields, h1])

/-- A value placed in the `params` dict of `get_ns_stations`: the source
puts strings under `q`, `includeNonPlannableStations` and `countryCodes`
and the native int under `limit`.  A `bool` constructor exists so that
"the flag is never serialized as a native boolean" is a statement, not a
typing accident. -/
inductive ParamValue where
  | str (s : String)
  | int (n : ℤ)
  | bool (b : Bool)
deriving Repr, DecidableEq

/-- Python truthiness of an optional string argument (`None` default): false
for `None` and for the empty string. -/
def pyTruthyStr : Option String → Bool
  | none => false
  | some s => !(s == "")

/-- Python truthiness of an optional int argument (`None` default): false
for `None` and for `0`. -/
def pyTruthyInt : Option ℤ → Bool
  | none => false
  | some n => !(n == 0)

/-- The `params` dict built by `get_ns_stations` (src/api.py lines 34-42):
starting empty, each of the four `if` statements appends its entry when its
condition is truthy. -/
def build_params (q : Option String) (include_non_plannable : Bool)
    (country_codes : Option String) (limit : Option ℤ) : List (String × ParamValue) :=
  (if pyTruthyStr q then [("q", ParamValue.str (q.getD ""))] else []) ++
  (if include_non_plannable then [("includeNonPlannableStations", ParamValue.str "true")] else []) ++
  (if pyTruthyStr country_codes then [("countryCodes", ParamValue.str (country_codes.getD ""))] else []) ++
  (if pyTruthyInt limit then [("limit", ParamValue.int (limit.getD 0))] else [])

/-- What the single `requests.get` call of `get_ns_stations` comes back
with: a transport-level failure (DNS, timeout, connection reset — a raised
`requests.exceptions.RequestException`), or an HTTP response with a status
code and a decoded JSON body. -/
inductive HttpOutcome where
  | transportError (msg : String)
  | response (status : ℕ) (body : Json)

/-- `response.raise_for_status()` raises `HTTPError` exactly for status
codes 400-599. -/
def raisesForStatus (status : ℕ) : Bool :=
  (400 ≤ status && status < 500) || (500 ≤ status && status < 600)

/-- The start of `str(HTTPError)` as `raise_for_status` builds it: the
status code and the error class ("Client Error" for 4xx, "Server Error"
for 5xx); the reason phrase and the url that follow are not modelled. -/
def httpErrorDetail (status : ℕ) : String :=
  toString status ++ (if status < 500 then " Client Error" else " Server Error")

/-- What a call to `get_ns_stations` leaves behind: the returned value
(`none` models Python `None`) and the diagnostic lines printed. -/
structure FetchResult where
  val : Option Json
  printed : List String

/-- The try/except of `get_ns_stations` (src/api.py lines 44-53), given the
outcome of the network call: an `HTTPError` from `raise_for_status` and any
other `RequestException` are each caught and printed, turning into `None`;
a non-error response returns the decoded body.  The model is total: no
exception propagates to the caller. -/
def handle_outcome : HttpOutcome → FetchResult
  | .transportError msg => ⟨none, ["Request error occurred: " ++ msg]⟩
  | .response status body =>
    if raisesForStatus status then
      ⟨none, ["HTTP error occurred: " ++ httpErrorDetail status]⟩
    else ⟨some body, []⟩

/-- The fixed stations endpoint of src/api.py line 28. -/
def stations_url : String := "https://gateway.apiportal.ns.nl/nsapp-stations/v3"

/-- The `headers` dict of src/api.py lines 29-32: the subscription-key
credential and the content type. -/
def request_headers (api_key : String) : List (String × String) :=
  [("Ocp-Apim-Subscription-Key", api_key), ("Content-Type", "application/json")]

/-- `get_ns_stations` (src/api.py lines 7-53): builds the `params` dict from
the four optional filters, performs one GET on the fixed url with the
credential headers — the network is modelled as a function from the url,
headers and query parameters sent to the outcome the call has — and absorbs
every request error into `None`. -/
def get_ns_stations (api_key : String) (q : Option String) (include_non_plannable : Bool)
    (country_codes : Option String) (limit : Option ℤ)
    (network : String → List (String × String) → List (String × ParamValue) → HttpOutcome) :
    FetchResult :=
  handle_outcome (network stations_url (request_headers api_key)
    (build_params q include_non_plannable country_codes limit))

/-- What the `__main__` block does after the fetch (src/api.py lines
109-121): `if data:` selects on Python truthiness of the fetched value. -/
inductive MainAction where
  | printedDataFrame (df : DataFrame)
  | printedFailure
  | raisedError

/-- Python truthiness of a decoded JSON value. -/
def Json.truthy : Json → Bool
  | .null => false
  | .bool b => b
  | .num q => !(q == 0)
  | .str s => !(s == "")
  | .arr elems => !elems.isEmpty
  | .obj fields => !fields.isEmpty

/-- Python truthiness of the value `get_ns_stations` returned: `None` is
falsy, a dict is truthy exactly when non-empty. -/
def pyTruthyOpt : Option Json → Bool
  | none => false
  | some j => j.truthy

/-- The branch the `__main__` block takes on the fetched `data`: the
DataFrame is built and printed only when `if data:` finds a truthy value;
otherwise the fixed failure line is printed.  `raisedError` covers the
flattener itself raising inside the truthy branch. -/
def main_step (data : Option Json) : MainAction :=
  if pyTruthyOpt data then
    match data with
    | some j =>
      match ns_data_to_dataframe j with
      | some df => .printedDataFrame df
      | none => .raisedError
    | none => .printedFailure
  else .printedFailure

/-- A well-formed station record is a dict. -/
lemma wellFormed_obj (s : Json) (h : wellFormedStation s = true) :
    ∃ kvs, s = Json.obj kvs := by
  cases s with
  | obj kvs => exact ⟨kvs, rfl⟩
  | null => simp [wellFormedStation] at h
  | bool b => simp [wellFormedStation] at h
  | num q => simp [wellFormedStation] at h
  | str s => simp [wellFormedStation] at h
  | arr xs => simp [wellFormedStation] at h

/-- Unfolding `ns_data_to_dataframe` on a dict whose (defaulted) payload
value is a list. -/
lemma ns_df_payload (dkvs : List (String × Json)) (stations : List Json)
    (hpay : dictGetD dkvs "payload" (Json.arr []) = Json.arr stations) :
    ns_data_to_dataframe (Json.obj dkvs) =
      match flattenStations stations with
      | none => none
      | some rows => some (mkDataFrame rows) := by
  simp only [ns_data_to_dataframe, pyGet_obj, hpay]

/-- A present `payload` key gives the defaulted lookup its value. -/
lemma dictGetD_of_lookup (dkvs : List (String × Json)) (key : String) (v d : Json)
    (h : lookupKey dkvs key = some v) : dictGetD dkvs key d = v := by
  simp [dictGetD, h]

/-- An absent key gives the defaulted lookup its default. -/
lemma dictGetD_of_none (dkvs : List (String × Json)) (key : String) (d : Json)
    (h : lookupKey dkvs key = none) : dictGetD dkvs key d = d := by
  simp [dictGetD, h]

/-! ## The claims -/

/-- C7: the input `{"payload": [{"id": {"uicCode": "8400058"}, "names":
{"long": "Utrecht Centraal"}, "location": {"lat": 52.09, "lng": 5.11}}]}`
flattens to exactly one row with `uicCode="8400058"`,
`name_long="Utrecht Centraal"`, `lat=52.09`, `lng=5.11`, every other scalar
column null and the empty list for `synonyms` and `tracks`. -/
theorem claim_C7_utrecht_row :
    ns_data_to_dataframe (Json.obj [("payload", Json.arr [
      Json.obj [("id", Json.obj [("uicCode", Json.str "8400058")]),
                ("names", Json.obj [("long", Json.str "Utrecht Centraal")]),
                ("location", Json.obj [("lat", Json.num 52.09), ("lng", Json.num 5.11)])]])])
    = some ⟨fixedColumns,
      [[("uicCode", Json.str "8400058"), ("evaCode", Json.null), ("cdCode", Json.null),
        ("code", Json.null), ("stationType", Json.null),
        ("name_long", Json.str "Utrecht Centraal"), ("name_medium", Json.null),
        ("name_short", Json.null), ("name_festive", Json.null), ("synonyms", Json.arr []),
        ("lat", Json.num 52.09), ("lng", Json.num 5.11), ("tracks", Json.arr []),
        ("hasKnownFacilities", Json.null), ("availableForAccessibleTravel", Json.null),
        ("hasTravelAssistance", Json.null), ("areTracksIndependentlyAccessible", Json.null),
        ("isBorderStop", Json.null), ("country", Json.null), ("radius", Json.null),
        ("approachingRadius", Json.null), ("distance", Json.null), ("startDate", Json.null),
        ("endDate", Json.null), ("nearbyMeLocationId_value", Json.null),
        ("nearbyMeLocationId_type", Json.null)]]⟩ := rfl

/-- C3 fails as stated: on an empty payload the code returns zero rows, but
`pd.DataFrame([])` infers its columns from the rows, so the column set is
empty rather than the full fixed set. -/
theorem claim_C3_counterexample :
    ns_data_to_dataframe (Json.obj [("payload", Json.arr [])])
      = some ⟨[], []⟩ ∧ ([] : List String) ≠ fixedColumns :=
  ⟨rfl, by simp [fixedColumns]⟩

/-- C3 amended: for an empty `payload` list, and for an absent `payload`
key, `ns_data_to_dataframe` returns zero rows — but with an empty column
set, since the columns are inferred from the (absent) rows. -/
theorem claim_C3_empty_payload (dkvs : List (String × Json))
    (h : lookupKey dkvs "payload" = some (Json.arr []) ∨ lookupKey dkvs "payload" = none) :
    ns_data_to_dataframe (Json.obj dkvs) = some ⟨[], []⟩ := by
  have hpay : dictGetD dkvs "payload" (Json.arr []) = Json.arr [] := by
    rcases h with h | h
    · exact dictGetD_of_lookup dkvs "payload" (Json.arr []) (Json.arr []) h
    · exact dictGetD_of_none dkvs "payload" (Json.arr []) h
  rw [ns_df_payload dkvs [] hpay]
  rfl

theorem claim_C3_empty_payload_witness :
    ns_data_to_dataframe (Json.obj []) = some ⟨[], []⟩ :=
  claim_C3_empty_payload [] (Or.inr rfl)

/-- C10: the output of `ns_data_to_dataframe` depends only on the value
under the input's `payload` key — two dict inputs agreeing there (also by
both lacking the key) produce the same result, whatever other top-level
keys they carry. -/
theorem claim_C10_payload_only (kvs1 kvs2 : List (String × Json))
    (h : lookupKey kvs1 "payload" = lookupKey kvs2 "payload") :
    ns_data_to_dataframe (Json.obj kvs1) = ns_data_to_dataframe (Json.obj kvs2) := by
  simp only [ns_data_to_dataframe, pyGet_obj, dictGetD, h]

theorem claim_C10_payload_only_witness :
    ns_data_to_dataframe (Json.obj [("payload", Json.arr []), ("meta", Json.num 1)])
      = ns_data_to_dataframe (Json.obj [("payload", Json.arr []), ("links", Json.arr [])]) :=
  claim_C10_payload_only
    [("payload", Json.arr []), ("meta", Json.num 1)]
    [("payload", Json.arr []), ("links", Json.arr [])] rfl

/-- C9: the `__main__` block classifies the fetch result by Python
truthiness, not by presence — it prints the fixed failure line exactly when
the value is falsy, so a successful 2xx response whose body is the empty
JSON object `{}` (returned as such by `get_ns_stations`) is also reported
as a failure and the flattener is never invoked on it. -/
theorem claim_C9_truthiness :
    (∀ data : Option Json,
      main_step data = MainAction.printedFailure ↔ pyTruthyOpt data = false) ∧
    get_ns_stations "a9dc5c210d1d4b4392769ca647458691" none false (some "NL") none
        (fun _ _ _ => HttpOutcome.response 200 (Json.obj []))
      = ⟨some (Json.obj []), []⟩ ∧
    main_step (some (Json.obj [])) = MainAction.printedFailure := by
  refine ⟨?_, rfl, rfl⟩
  intro data
  constructor
  · intro h
    by_contra htr
    rw [Bool.not_eq_false] at htr
    rw [main_step.eq_def, htr] at h
    rcases data with _ | j
    · simp [pyTruthyOpt] at htr
    · cases hdf : ns_data_to_dataframe j <;> simp only [hdf] at h <;> cases h
  · intro h
    rw [main_step.eq_def, h]
    rfl


/-- Full description of `ns_data_to_dataframe` on a dict input whose
`payload` key holds a list of well-formed station records: one row per
station in input order, each row carrying the fixed column set. -/
lemma ns_df_all_wf (dkvs : List (String × Json)) (stations : List Json)
    (hpay : lookupKey dkvs "payload" = some (Json.arr stations))
    (hwf : ∀ s ∈ stations, wellFormedStation s = true) :
    ∃ df, ns_data_to_dataframe (Json.obj dkvs) = some df ∧
      df.records.length = stations.length ∧
      (∀ i : ℕ, df.records[i]? = (stations[i]?).bind flattenStation) ∧
      (∀ row ∈ df.records, row.map Prod.fst = fixedColumns) := by
  have hall : ∀ s ∈ stations, ∃ r, flattenStation s = some r := by
    intro s hs
    obtain ⟨kvs, rfl⟩ := wellFormed_obj s (hwf s hs)
    obtain ⟨row, hrow, -⟩ := flattenStation_wf_keys kvs (hwf _ hs)
    exact ⟨row, hrow⟩
  obtain ⟨rows, hrows, hlen, hidx⟩ := flattenStations_of_all stations hall
  have hpay2 := dictGetD_of_lookup dkvs "payload" (Json.arr stations) (Json.arr []) hpay
  refine ⟨mkDataFrame rows, ?_, hlen, hidx, ?_⟩
  · rw [ns_df_payload dkvs stations hpay2, hrows]
  · intro row hrow
    obtain ⟨i, hi⟩ := List.mem_iff_getElem?.mp hrow
    have hi2 : rows[i]? = some row := hi
    have hb := hidx i
    rw [hi2] at hb
    cases hsi : stations[i]? with
    | none => rw [hsi] at hb; cases hb
    | some s =>
      rw [hsi] at hb
      have hsmem : s ∈ stations := List.mem_iff_getElem?.mpr ⟨i, hsi⟩
      obtain ⟨kvs, rfl⟩ := wellFormed_obj s (hwf s hsmem)
      obtain ⟨row2, hrow2, hkeys⟩ := flattenStation_wf_keys kvs (hwf _ hsmem)
      rw [Option.some_bind, hrow2] at hb
      injection hb with he
      rw [he]
      exact hkeys

/-- C2: for a dict input whose `payload` key holds a list of (well-formed)
station records, `ns_data_to_dataframe` returns one flat row per input
station — row `i` is the flattening of station `i`, so input order is
preserved — and every row carries the same fixed column set, whatever
fields each station actually had. -/
theorem claim_C2_one_row_per_station (dkvs : List (String × Json)) (stations : List Json)
    (hpay : lookupKey dkvs "payload" = some (Json.arr stations))
    (hwf : ∀ s ∈ stations, wellFormedStation s = true) :
    ∃ df, ns_data_to_dataframe (Json.obj dkvs) = some df ∧
      df.records.length = stations.length ∧
      (∀ i : ℕ, df.records[i]? = (stations[i]?).bind flattenStation) ∧
      (∀ row ∈ df.records, row.map Prod.fst = fixedColumns) :=
  ns_df_all_wf dkvs stations hpay hwf

theorem claim_C2_one_row_per_station_witness :
    ∃ df, ns_data_to_dataframe
        (Json.obj [("payload", Json.arr [Json.obj [], Json.obj [("country", Json.str "NL")]])])
        = some df ∧
      df.records.length = ([Json.obj [], Json.obj [("country", Json.str "NL")]] : List Json).length ∧
      (∀ i : ℕ, df.records[i]? =
        (([Json.obj [], Json.obj [("country", Json.str "NL")]] : List Json)[i]?).bind flattenStation) ∧
      (∀ row ∈ df.records, row.map Prod.fst = fixedColumns) :=
  claim_C2_one_row_per_station
    [("payload", Json.arr [Json.obj [], Json.obj [("country", Json.str "NL")]])]
    [Json.obj [], Json.obj [("country", Json.str "NL")]] rfl
    (by intro s hs
        rcases List.mem_cons.mp hs with h | h
        · subst h; rfl
        · rw [List.mem_singleton] at h; subst h; rfl)

/-- C1: a station record from which an entire nested sub-object is absent
(here: no `location` key) still flattens — its row appears in the output at
the station's position, with the corresponding flat fields `lat` and `lng`
null. -/
theorem claim_C1_missing_subobject (dkvs : List (String × Json)) (stations : List Json)
    (i : ℕ) (skvs : List (String × Json))
    (hpay : lookupKey dkvs "payload" = some (Json.arr stations))
    (hwf : ∀ s ∈ stations, wellFormedStation s = true)
    (hi : stations[i]? = some (Json.obj skvs))
    (hloc : lookupKey skvs "location" = none) :
    ∃ df row, ns_data_to_dataframe (Json.obj dkvs) = some df ∧
      df.records[i]? = some row ∧
      lookupKey row "lat" = some Json.null ∧
      lookupKey row "lng" = some Json.null := by
  obtain ⟨df, hdf, -, hidx, -⟩ := ns_df_all_wf dkvs stations hpay hwf
  have hmem : Json.obj skvs ∈ stations := List.mem_iff_getElem?.mpr ⟨i, hi⟩
  obtain ⟨idkvs, nameskvs, lockvs, nearkvs, -, -, hlocv, -, heq⟩ :=
    flattenStation_wf skvs (hwf _ hmem)
  have hlockvs : lockvs = ([] : List (String × Json)) := by
    rw [dictGetD_of_none skvs "location" (Json.obj []) hloc] at hlocv
    injection hlocv with h
    exact h.symm
  subst hlockvs
  refine ⟨df, flatRow skvs idkvs nameskvs [] nearkvs, hdf, ?_, ?_, ?_⟩
  · rw [hidx i, hi]
    simpa using heq
  · exact flatRow_lat skvs idkvs nameskvs [] nearkvs
  · exact flatRow_lng skvs idkvs nameskvs [] nearkvs

theorem claim_C1_missing_subobject_witness :
    ∃ df row, ns_data_to_dataframe
        (Json.obj [("payload", Json.arr [Json.obj [("id", Json.obj [("code", Json.str "UT")])]])])
        = some df ∧
      df.records[0]? = some row ∧
      lookupKey row "lat" = some Json.null ∧
      lookupKey row "lng" = some Json.null :=
  claim_C1_missing_subobject
    [("payload", Json.arr [Json.obj [("id", Json.obj [("code", Json.str "UT")])]])]
    [Json.obj [("id", Json.obj [("code", Json.str "UT")])]] 0
    [("id", Json.obj [("code", Json.str "UT")])] rfl
    (by intro s hs
        rw [List.mem_singleton] at hs
        subst hs
        rfl)
    rfl rfl

/-- C6: a station record whose `names` sub-object carries a `synonyms`
list sees that list reach the flattened row unchanged — no transformation,
validation or coercion is applied on the way. -/
theorem claim_C6_synonyms_passthrough (skvs nkvs : List (String × Json)) (syns : List Json)
    (hwf : wellFormedStation (Json.obj skvs) = true)
    (hnames : lookupKey skvs "names" = some (Json.obj nkvs))
    (hsyn : lookupKey nkvs "synonyms" = some (Json.arr syns)) :
    ∃ row, flattenStation (Json.obj skvs) = some row ∧
      lookupKey row "synonyms" = some (Json.arr syns) := by
  obtain ⟨idkvs, nameskvs, lockvs, nearkvs, -, hnamesv, -, -, heq⟩ :=
    flattenStation_wf skvs hwf
  rw [dictGetD_of_lookup skvs "names" (Json.obj nkvs) (Json.obj []) hnames] at hnamesv
  injection hnamesv with h
  subst h
  refine ⟨_, heq, ?_⟩
  rw [flatRow_synonyms, dictGetD_of_lookup nkvs "synonyms" (Json.arr syns) (Json.arr []) hsyn]

theorem claim_C6_synonyms_passthrough_witness :
    ∃ row, flattenStation (Json.obj
        [("names", Json.obj [("synonyms", Json.arr [Json.str "Utrecht CS", Json.str "UC"])])])
        = some row ∧
      lookupKey row "synonyms" = some (Json.arr [Json.str "Utrecht CS", Json.str "UC"]) :=
  claim_C6_synonyms_passthrough
    [("names", Json.obj [("synonyms", Json.arr [Json.str "Utrecht CS", Json.str "UC"])])]
    [("synonyms", Json.arr [Json.str "Utrecht CS", Json.str "UC"])]
    [Json.str "Utrecht CS", Json.str "UC"] rfl rfl rfl

/-- C8: a station record that binds one of the sub-object keys (`id`,
`names`, `location`, `nearbyMeLocationId`) to `null` or any non-dict value
makes `ns_data_to_dataframe` raise rather than default the flat fields: the
`station.get(key, {})` fallback is not used when the key is present. -/
theorem claim_C8_present_null_subobject (dkvs : List (String × Json)) (stations : List Json)
    (skvs : List (String × Json)) (key : String) (v : Json)
    (hpay : lookupKey dkvs "payload" = some (Json.arr stations))
    (hmem : Json.obj skvs ∈ stations)
    (hk : key ∈ subObjectKeys)
    (hv : lookupKey skvs key = some v)
    (hno : v.isObj = false) :
    ns_data_to_dataframe (Json.obj dkvs) = none := by
  have hf := flattenStation_subkey_not_obj skvs key hk v hv hno
  have hfs := flattenStations_of_mem_none stations _ hmem hf
  rw [ns_df_payload dkvs stations
    (dictGetD_of_lookup dkvs "payload" (Json.arr stations) (Json.arr []) hpay), hfs]

theorem claim_C8_present_null_subobject_witness :
    ns_data_to_dataframe (Json.obj [("payload", Json.arr [Json.obj [("id", Json.null)]])])
      = none :=
  claim_C8_present_null_subobject
    [("payload", Json.arr [Json.obj [("id", Json.null)]])]
    [Json.obj [("id", Json.null)]]
    [("id", Json.null)] "id" Json.null rfl
    (List.mem_singleton.mpr rfl)
    (by simp [subObjectKeys]) rfl rfl

/-- Membership in a conditional singleton segment of the `params` dict. -/
lemma mem_if_singleton {α : Type} (x y : α) (c : Prop) [Decidable c] :
    (x ∈ if c then [y] else []) ↔ c ∧ x = y := by
  split_ifs with hc
  · simp [hc]
  · simp [hc]

/-- C4: the `params` dict built by `get_ns_stations` contains exactly the
query parameters whose supplied values are truthy — `q` and `countryCodes`
when given and non-empty, `limit` when given and non-zero (in particular
omitted when not given), the flag only when true — and the flag, when
present, is the literal string "true", never a native boolean. -/
theorem claim_C4_params_exact (q country_codes : Option String)
    (include_non_plannable : Bool) (limit : Option ℤ) :
    (∀ v : ParamValue,
      ("q", v) ∈ build_params q include_non_plannable country_codes limit ↔
        ∃ s, q = some s ∧ s ≠ "" ∧ v = ParamValue.str s) ∧
    (∀ v : ParamValue,
      ("includeNonPlannableStations", v)
          ∈ build_params q include_non_plannable country_codes limit ↔
        include_non_plannable = true ∧ v = ParamValue.str "true") ∧
    (∀ v : ParamValue,
      ("countryCodes", v) ∈ build_params q include_non_plannable country_codes limit ↔
        ∃ s, country_codes = some s ∧ s ≠ "" ∧ v = ParamValue.str s) ∧
    (∀ v : ParamValue,
      ("limit", v) ∈ build_params q include_non_plannable country_codes limit ↔
        ∃ n : ℤ, limit = some n ∧ n ≠ 0 ∧ v = ParamValue.int n) ∧
    (∀ k : String, ∀ v : ParamValue,
      (k, v) ∈ build_params q include_non_plannable country_codes limit →
        k = "q" ∨ k = "includeNonPlannableStations" ∨ k = "countryCodes" ∨ k = "limit") := by
  refine ⟨?_, ?_, ?_, ?_, ?_⟩ <;>
    (first | intro k v | intro v) <;>
    simp only [build_params, List.mem_append, mem_if_singleton, Prod.mk.injEq] <;>
    rcases q with _ | qs <;> rcases country_codes with _ | cs <;> rcases limit with _ | n <;>
    cases include_non_plannable <;>
    simp [pyTruthyStr, pyTruthyInt] <;>
    aesop

theorem claim_C4_params_exact_witness :
    (∀ v : ParamValue,
      ("q", v) ∈ build_params (some "Utrecht") true none (some 10) ↔
        ∃ s, (some "Utrecht" : Option String) = some s ∧ s ≠ "" ∧ v = ParamValue.str s) ∧
    (∀ v : ParamValue,
      ("includeNonPlannableStations", v) ∈ build_params (some "Utrecht") true none (some 10) ↔
        true = true ∧ v = ParamValue.str "true") ∧
    (∀ v : ParamValue,
      ("countryCodes", v) ∈ build_params (some "Utrecht") true none (some 10) ↔
        ∃ s, (none : Option String) = some s ∧ s ≠ "" ∧ v = ParamValue.str s) ∧
    (∀ v : ParamValue,
      ("limit", v) ∈ build_params (some "Utrecht") true none (some 10) ↔
        ∃ n : ℤ, (some 10 : Option ℤ) = some n ∧ n ≠ 0 ∧ v = ParamValue.int n) ∧
    (∀ k : String, ∀ v : ParamValue,
      (k, v) ∈ build_params (some "Utrecht") true none (some 10) →
        k = "q" ∨ k = "includeNonPlannableStations" ∨ k = "countryCodes" ∨ k = "limit") :=
  claim_C4_params_exact (some "Utrecht") none true (some 10)

lemma raisesForStatus_of_error (status : ℕ) (h4 : 400 ≤ status) (h6 : status < 600) :
    raisesForStatus status = true := by
  simp only [raisesForStatus, Bool.or_eq_true, Bool.and_eq_true, decide_eq_true_eq]
  omega

lemma raisesForStatus_of_ok (status : ℕ) (h4 : status < 400) :
    raisesForStatus status = false := by
  simp only [raisesForStatus, Bool.or_eq_false_iff, Bool.and_eq_false_iff,
    decide_eq_false_iff_not]
  omega

/-- C5: whatever the filters, when the one network call of
`get_ns_stations` comes back with an HTTP error status (4xx/5xx) the
function prints a line naming the HTTP error category and returns `None`;
when it fails at transport level it prints a line naming the request-error
category and returns `None` — in both cases totally, no exception reaching
the caller — and on HTTP success (2xx) it returns the decoded JSON body. -/
theorem claim_C5_error_absorption (api_key : String) (q country_codes : Option String)
    (include_non_plannable : Bool) (limit : Option ℤ)
    (network : String → List (String × String) → List (String × ParamValue) → HttpOutcome)
    (status : ℕ) (body : Json) (msg : String) :
    (network stations_url (request_headers api_key)
        (build_params q include_non_plannable country_codes limit)
        = HttpOutcome.response status body →
      400 ≤ status → status < 600 →
      get_ns_stations api_key q include_non_plannable country_codes limit network
        = ⟨none, ["HTTP error occurred: " ++ httpErrorDetail status]⟩) ∧
    (network stations_url (request_headers api_key)
        (build_params q include_non_plannable country_codes limit)
        = HttpOutcome.transportError msg →
      get_ns_stations api_key q include_non_plannable country_codes limit network
        = ⟨none, ["Request error occurred: " ++ msg]⟩) ∧
    (network stations_url (request_headers api_key)
        (build_params q include_non_plannable country_codes limit)
        = HttpOutcome.response status body →
      200 ≤ status → status < 300 →
      get_ns_stations api_key q include_non_plannable country_codes limit network
        = ⟨some body, []⟩) := by
  refine ⟨?_, ?_, ?_⟩
  · intro hnet h4 h6
    rw [get_ns_stations, hnet]
    simp only [handle_outcome, raisesForStatus_of_error status h4 h6, if_true]
  · intro hnet
    rw [get_ns_stations, hnet]
    rfl
  · intro hnet h2 h3
    rw [get_ns_stations, hnet]
    simp only [handle_outcome, raisesForStatus_of_ok status (by omega), Bool.false_eq_true,
      if_false]

theorem claim_C5_error_absorption_witness :
    ((fun _ _ _ => HttpOutcome.response 401 (Json.obj []) :
        String → List (String × String) → List (String × ParamValue) → HttpOutcome)
        stations_url (request_headers "key") (build_params none false (some "NL") none)
        = HttpOutcome.response 401 (Json.obj []) →
      400 ≤ 401 → 401 < 600 →
      get_ns_stations "key" none false (some "NL") none
          (fun _ _ _ => HttpOutcome.response 401 (Json.obj []))
        = ⟨none, ["HTTP error occurred: " ++ httpErrorDetail 401]⟩) ∧
    ((fun _ _ _ => HttpOutcome.response 401 (Json.obj []) :
        String → List (String × String) → List (String × ParamValue) → HttpOutcome)
        stations_url (request_headers "key") (build_params none false (some "NL") none)
        = HttpOutcome.transportError "timed out" →
      get_ns_stations "key" none false (some "NL") none
          (fun _ _ _ => HttpOutcome.response 401 (Json.obj []))
        = ⟨none, ["Request error occurred: " ++ "timed out"]⟩) ∧
    ((fun _ _ _ => HttpOutcome.response 401 (Json.obj []) :
        String → List (String × String) → List (String × ParamValue) → HttpOutcome)
        stations_url (request_headers "key") (build_params none false (some "NL") none)
        = HttpOutcome.response 401 (Json.obj []) →
      200 ≤ 401 → 401 < 300 →
      get_ns_stations "key" none false (some "NL") none
          (fun _ _ _ => HttpOutcome.response 401 (Json.obj []))
        = ⟨some (Json.obj []), []⟩) :=
  claim_C5_error_absorption "key" none (some "NL") false none
    (fun _ _ _ => HttpOutcome.response 401 (Json.obj [])) 401 (Json.obj []) "timed out"
